import Mathlib

/-!
Verification development for the `rust-svelte-setup` repository: a shallow
embedding of the SvelteKit frontend's OAuth login/session flow, its fetch
wrappers, the user-service client, the home-page load guard, and the
database schema invariants, together with theorems settling the spec's
testable properties.
-/

/-! ## Message shapes (generated protocol bindings)

The generated bindings (`$lib/protos/...`) declare every message field as
optional; absent and `null` JSON fields are both modelled as `none`. -/

/-- `OAuth2Tokens` from the `arctic` library: the flow only uses `idToken()`. -/
structure OAuth2Tokens where
  idToken : String
deriving DecidableEq, Repr

/-- Decoded identity claims (`Claims` in `+page.svelte`), cast from
`decodeIdToken` with every field possibly absent. -/
structure Claims where
  sub : Option String
  name : Option String
  email : Option String
  picture : Option String
deriving DecidableEq, Repr

/-- `User` message: generated binding with optional `id`. -/
structure UserMsg where
  id : Option String
deriving DecidableEq, Repr

/-- `GetUserIdFromGoogleIdResp` message: optional `id` field. -/
structure GetUserIdFromGoogleIdResp where
  id : Option String
deriving DecidableEq, Repr

/-- `CreateUserResp` message: `'user'?: (User | null)`. -/
structure CreateUserResp where
  user : Option UserMsg
deriving DecidableEq, Repr

/-- `CreateSessionResp` message: optional `token`. -/
structure CreateSessionResp where
  token : Option String
deriving DecidableEq, Repr

/-- `GetUserResp` message: `'user'?: (User | null)`. -/
structure GetUserResp where
  user : Option UserMsg
deriving DecidableEq, Repr

/-- JavaScript truthiness of a `string | undefined | null` value, as tested by
`if (!userId)` / `if (!session.token)`: `undefined`, `null` and `""` are falsy. -/
def jsTruthy : Option String → Bool
  | none => false
  | some s => s != ""

/-! ## The Google OAuth callback flow

Embedding of `validateAuthorizationCode` in
`src/app/src/routes/login/google/callback/+page.svelte`. The external world
(session storage, URL parameters, the provider token endpoint, and the three
backend services) is an oracle record; the function returns the flow's result
together with the backend calls it issued, the token written to
`localStorage['sessionToken']` (if any), and whether it navigated to `/`. -/

/-- One backend/provider call issued by the callback flow. -/
inductive BackendCall where
  /-- `google.validateAuthorizationCode(code, codeVerifier)`: the token exchange. -/
  | exchange : BackendCall
  /-- `userService.getUserIdFromGoogleId(googleId)`. -/
  | lookup : String → BackendCall
  /-- `userService.createUser(googleId)`. -/
  | createUser : String → BackendCall
  /-- `authService.createSession(userId)`. -/
  | createSession : String → BackendCall
deriving DecidableEq, Repr

/-- Result of the callback flow: an error `Response` with a status, or normal
completion (the success path ends in `goto('/')` and returns `undefined`). -/
inductive FlowResult where
  | response : Nat → FlowResult
  | completed : FlowResult
deriving DecidableEq, Repr

/-- Observable outcome of one callback-flow invocation. -/
structure FlowOut where
  result : FlowResult
  /-- Backend/provider calls, in execution order. -/
  calls : List BackendCall
  /-- Value written to `localStorage['sessionToken']` (`none` = no write). -/
  storedToken : Option String
  /-- Whether the flow executed `goto('/')`. -/
  navigatedHome : Bool
deriving DecidableEq, Repr

/-- Environment of one callback invocation: stored session-storage values, the
URL parameters handed in as `data`, and oracles for the external calls. -/
structure CallbackEnv where
  /-- `sessionStorage.getItem('oauth_state')`. -/
  storedState : Option String
  /-- `sessionStorage.getItem('oauth_code_verifier')`. -/
  codeVerifier : Option String
  /-- `data.code`. -/
  code : Option String
  /-- `data.state`. -/
  state : Option String
  /-- `google.validateAuthorizationCode(code, codeVerifier)`: throws or yields tokens. -/
  exchange : String → String → Except Unit OAuth2Tokens
  /-- `decodeIdToken` over the id token, cast to the (all-optional) claims. -/
  decodeIdToken : String → Claims
  /-- `userService.getUserIdFromGoogleId(googleId)`: `undefined` on 404, else the response. -/
  getUserIdFromGoogleId : String → Option GetUserIdFromGoogleIdResp
  /-- `userService.createUser(googleId)`. -/
  createUser : String → CreateUserResp
  /-- `authService.createSession(userId)`. -/
  createSession : String → CreateSessionResp

/-- An error return `new Response(..., { status })` after `calls` were issued:
no token write, no navigation. -/
def errOut (status : Nat) (calls : List BackendCall) : FlowOut :=
  { result := .response status, calls := calls, storedToken := none, navigatedHome := false }

/-- The user-id resolution expression
`existingUser?.id ?? (await userService.createUser(googleId)).user?.id`.
The nullish coalescing falls through only on `null`/`undefined`, so a
present-but-empty id is kept. -/
def resolvedUserId (env : CallbackEnv) (googleId : String) : Option String :=
  match (env.getUserIdFromGoogleId googleId).bind GetUserIdFromGoogleIdResp.id with
  | some u => some u
  | none => (env.createUser googleId).user.bind UserMsg.id

/-- Whether the resolution above had to call `createUser`. -/
def createUserCalled (env : CallbackEnv) (googleId : String) : Bool :=
  ((env.getUserIdFromGoogleId googleId).bind GetUserIdFromGoogleIdResp.id).isNone

/-- Tail of the flow from the point where `googleId` is known: lookup,
optional creation, truthiness check on the user id, session creation,
truthiness check on the token, then store + `goto('/')`. -/
def finishLogin (env : CallbackEnv) (googleId : String) : FlowOut :=
  let userId := resolvedUserId env googleId
  let calls := [BackendCall.exchange, BackendCall.lookup googleId] ++
    (if createUserCalled env googleId then [BackendCall.createUser googleId] else [])
  match userId with
  | none => errOut 500 calls
  | some u =>
    if u == "" then errOut 500 calls
    else
      let session := env.createSession u
      let calls := calls ++ [BackendCall.createSession u]
      match session.token with
      | none => errOut 500 calls
      | some t =>
        if t == "" then errOut 500 calls
        else { result := .completed, calls := calls, storedToken := some t, navigatedHome := true }

/-- Embedding of `validateAuthorizationCode` from
`src/app/src/routes/login/google/callback/+page.svelte`. -/
def validateAuthorizationCode (env : CallbackEnv) : FlowOut :=
  match env.storedState, env.codeVerifier, env.code, env.state with
  | some storedState, some codeVerifier, some code, some state =>
    if storedState != state then errOut 400 []
    else
      match env.exchange code codeVerifier with
      | .error _ => errOut 400 [BackendCall.exchange]
      | .ok tokens =>
        match (env.decodeIdToken tokens.idToken).sub with
        | none => errOut 400 [BackendCall.exchange]
        | some googleId => finishLogin env googleId
  | _, _, _, _ => errOut 400 []

/-! ## The base fetch wrappers

`src/app/src/lib/service.ts` (current variant): the wrapped fetch forwards the
caller's `init` spread with rebuilt headers and `credentials: 'include'`; on a
401 response it calls `goto('/login')`; it always returns the response
unchanged. An older bearer-token variant of `BaseService` instead attaches
`Authorization: Bearer <token>` and, on 401 of an authenticated call, removes
`localStorage['sessionToken']` before redirecting. -/

/-- The `RequestCredentials` values of the fetch API. -/
inductive CredentialsMode where
  | credInclude : CredentialsMode
  | credOmit : CredentialsMode
  | credSameOrigin : CredentialsMode
deriving DecidableEq, Repr

/-- The `RequestInit` fields the services use, each optional as in TS. -/
structure ReqInit where
  method : Option String
  body : Option String
  headers : List (String × String)
  cache : Option String
  credentials : Option CredentialsMode
deriving DecidableEq, Repr

/-- A fetch `Response`, reduced to the fields the clients inspect. -/
structure FetchResponse where
  status : Nat
  statusText : String
  /-- The JSON body, kept abstract as a string here. -/
  bodyText : String
deriving DecidableEq, Repr

/-- The init actually dispatched by the `BaseService` wrapper of
`src/app/src/lib/service.ts`: `{ ...init, headers, credentials: 'include' }`
where `headers = new Headers(init.headers ?? {})`. -/
def forwardedInit (init : ReqInit) : ReqInit :=
  { init with credentials := some CredentialsMode.credInclude }

/-- Embedding of the wrapped fetch of `BaseService`
(`src/app/src/lib/service.ts`). Returns the response handed back to the
caller, the `sessionToken` cell after the call, and whether `goto('/login')`
ran. -/
def serviceFetch (baseFetch : ReqInit → FetchResponse) (init : ReqInit)
    (token0 : Option String) : FetchResponse × Option String × Bool :=
  let response := baseFetch (forwardedInit init)
  (response, token0, response.status == 401)

/-- The init dispatched by the older bearer-token `BaseService` variant:
headers gain `Authorization: Bearer <token>` when `auth` is set and a token is
stored; no `credentials` override. -/
def bearerForwardedInit (init : ReqInit) (auth : Bool) (token0 : Option String) : ReqInit :=
  if auth && jsTruthy token0 then
    { init with headers := ("Authorization", "Bearer " ++ token0.getD "") :: init.headers }
  else init

/-- Embedding of the wrapped fetch of the bearer-token `BaseService` variant:
on a 401 of an authenticated call it removes `localStorage['sessionToken']`
and runs `goto('/login')`. -/
def bearerServiceFetch (baseFetch : ReqInit → FetchResponse) (init : ReqInit)
    (auth : Bool) (token0 : Option String) : FetchResponse × Option String × Bool :=
  let response := baseFetch (bearerForwardedInit init auth token0)
  if auth && (response.status == 401) then (response, none, true)
  else (response, token0, false)

/-! ## The user-service client -/

/-- `response.ok` of the fetch API: status in the range 200-299. -/
def respOk (status : Nat) : Bool := 200 ≤ status && status < 300

/-- Thrown `HttpError(message, status)`; only the status is inspected. -/
structure HttpError where
  status : Nat
deriving DecidableEq, Repr

/-- Embedding of `UserService.getCurrentUser`
(`src/app/src/lib/user/service.ts`), as a function of the response to the
`GET /user/me` call: a 404 yields `undefined`; any other non-ok status throws
`HttpError` with that status; an ok status yields `data.user ?? undefined`. -/
def getCurrentUser (status : Nat) (userBody : GetUserResp) :
    Except HttpError (Option UserMsg) :=
  if status == 404 then Except.ok none
  else if !(respOk status) then Except.error { status := status }
  else Except.ok userBody.user

/-! ## The home-page load guard

`src/app/src/routes/+page.ts`: the load reads `localStorage['sessionToken']`;
a `null` or empty token raises `redirect(307, '/login')`; otherwise it awaits
`getCurrentUser()` and returns `{ user }`. -/

/-- Outcome of the home-page `load`. -/
inductive LoadOutcome where
  /-- `throw redirect(status, location)`. -/
  | redirected : Nat → String → LoadOutcome
  /-- Normal return `{ user }`. -/
  | returned : Option UserMsg → LoadOutcome
  /-- `getCurrentUser` threw; the error propagates out of `load`. -/
  | threw : HttpError → LoadOutcome
deriving DecidableEq, Repr

/-- Embedding of the home-page `load` as a function of the stored token and an
oracle for the `getCurrentUser()` call; the second component records whether
`getCurrentUser` was called. -/
def homeLoad (token : Option String)
    (gcu : Except HttpError (Option UserMsg)) : LoadOutcome × Bool :=
  if token == none || token == some "" then (LoadOutcome.redirected 307 "/login", false)
  else
    match gcu with
    | Except.error e => (LoadOutcome.threw e, true)
    | Except.ok u => (LoadOutcome.returned u, true)

/-! ## The auth database: sessions referencing users

The sessions migration (`V1__create_sessions_table.sql`, auth service) gives a
`sessions` table with `user_id NOT NULL`; the users migration
(`V1__create_users_table.sql`, user service) gives a `users` table with a
`UUID` primary key. No foreign key exists (the tables live in different
service databases), so referential integrity comes from the write discipline
of the backend services, whose code is not part of the frontend sources. -/

/-- A row of the `sessions` table, reduced to the columns the invariant
mentions: the primary key `id` and the `NOT NULL` column `user_id`. -/
structure SessionRow where
  id : String
  userId : String
deriving DecidableEq, Repr

/-- The relevant database state: the `users` table (as a list of primary-key
ids) and the `sessions` table. -/
structure AuthDB where
  users : List String
  sessions : List SessionRow
deriving DecidableEq, Repr

/-- Modelled from the spec: the backend session/user write discipline is not
in the frontend sources, so the reachable database states are generated by the
spec's operations — users are created with a fresh id on first login (§3, §4.2
step 4; the `UUID` primary key rejects duplicates), a session is created for
the resolved user id of an existing user (§4.2 steps 4-5), and a session is
deleted on logout (§3). No operation deletes a user. -/
inductive AuthDB.Reachable : AuthDB → Prop where
  | init : AuthDB.Reachable ⟨[], []⟩
  | createUser (db : AuthDB) (uid : String) (h : AuthDB.Reachable db)
      (hfresh : uid ∉ db.users) :
      AuthDB.Reachable ⟨uid :: db.users, db.sessions⟩
  | createSession (db : AuthDB) (sid uid : String) (h : AuthDB.Reachable db)
      (hmem : uid ∈ db.users) :
      AuthDB.Reachable ⟨db.users, ⟨sid, uid⟩ :: db.sessions⟩
  | deleteSession (db : AuthDB) (sid : String) (h : AuthDB.Reachable db) :
      AuthDB.Reachable ⟨db.users, db.sessions.filter (fun s => s.id != sid)⟩

/-! ## The oauth_accounts table

`src/services/auth/migrations/V2__create_oauth_accounts_table.sql`: the
`external_user_id` column is declared `NOT NULL UNIQUE` and `id` is the
primary key, so the database rejects any insert that repeats either value. -/

/-- A row of `oauth_accounts`, reduced to the constrained columns. -/
structure OAuthAccountRow where
  id : String
  provider : Int
  externalUserId : String
deriving DecidableEq, Repr

/-- Reachable states of the `oauth_accounts` table: starting empty, an insert
is accepted only when it violates neither the `UNIQUE` constraint on
`external_user_id` nor the primary key on `id`; deletes (by primary key) are
always accepted. -/
inductive OAuthTable.Reachable : List OAuthAccountRow → Prop where
  | init : OAuthTable.Reachable []
  | insert (t : List OAuthAccountRow) (r : OAuthAccountRow)
      (h : OAuthTable.Reachable t)
      (hunique : ∀ r' ∈ t, r'.externalUserId ≠ r.externalUserId)
      (hpk : ∀ r' ∈ t, r'.id ≠ r.id) :
      OAuthTable.Reachable (r :: t)
  | delete (t : List OAuthAccountRow) (rid : String)
      (h : OAuthTable.Reachable t) :
      OAuthTable.Reachable (t.filter (fun r => r.id != rid))

/-! ## Concrete demonstration inputs -/

/-- A fully successful callback environment: matching state, successful
exchange, claims carrying a subject id, no pre-existing account, creation
yielding a user id, session creation yielding a token. -/
def demoEnv : CallbackEnv where
  storedState := some "abc"
  codeVerifier := some "ver"
  code := some "xyz"
  state := some "abc"
  exchange := fun _ _ => Except.ok { idToken := "idtok" }
  decodeIdToken := fun _ => { sub := some "g1", name := none, email := none, picture := none }
  getUserIdFromGoogleId := fun _ => none
  createUser := fun _ => { user := some { id := some "u1" } }
  createSession := fun _ => { token := some "tok1" }

/-! ## Theorems -/

/-- C1: whenever stored state, code verifier, code and state are all present,
the received state equals the stored one, the code exchange succeeds, the
decoded claims carry a subject id, a (non-empty) user id is resolved, and
session creation returns a (non-empty) token, the callback flow completes,
stores that token under `sessionToken` and navigates to `/`. -/
theorem callback_success_stores_token_and_redirects
    (env : CallbackEnv) (s v c : String) (tok : OAuth2Tokens) (g u t : String)
    (hs : env.storedState = some s) (hv : env.codeVerifier = some v)
    (hc : env.code = some c) (hst : env.state = some s)
    (hex : env.exchange c v = Except.ok tok)
    (hsub : (env.decodeIdToken tok.idToken).sub = some g)
    (hu : resolvedUserId env g = some u) (hune : u ≠ "")
    (ht : (env.createSession u).token = some t) (htne : t ≠ "") :
    (validateAuthorizationCode env).result = FlowResult.completed ∧
    (validateAuthorizationCode env).storedToken = some t ∧
    (validateAuthorizationCode env).navigatedHome = true := by
  have hstep : validateAuthorizationCode env = finishLogin env g := by
    unfold validateAuthorizationCode
    rw [hs, hv, hc, hst]
    simp [hex, hsub]
  rw [hstep]
  unfold finishLogin
  rw [hu]
  simp [hune, ht, htne]

/-- C1 witness: the successful demonstration environment completes, stores
`"tok1"` and navigates home. -/
theorem callback_success_witness :
    (validateAuthorizationCode demoEnv).result = FlowResult.completed ∧
    (validateAuthorizationCode demoEnv).storedToken = some "tok1" ∧
    (validateAuthorizationCode demoEnv).navigatedHome = true :=
  callback_success_stores_token_and_redirects demoEnv "abc" "ver" "xyz"
    { idToken := "idtok" } "g1" "u1" "tok1" rfl rfl rfl rfl rfl rfl rfl
    (by decide) rfl (by decide)

/-- C2: whenever the received state is missing or differs from the stored
state, the callback flow returns a 400 error before issuing any backend or
provider call, stores no token and does not navigate. -/
theorem callback_state_mismatch_aborts (env : CallbackEnv)
    (h : env.state = none ∨ env.state ≠ env.storedState) :
    (validateAuthorizationCode env).result = FlowResult.response 400 ∧
    (validateAuthorizationCode env).calls = [] ∧
    (validateAuthorizationCode env).storedToken = none ∧
    (validateAuthorizationCode env).navigatedHome = false := by
  have hout : validateAuthorizationCode env = errOut 400 [] := by
    unfold validateAuthorizationCode
    rcases hss : env.storedState with _ | s
    · rcases env.codeVerifier <;> rcases env.code <;> rcases env.state <;> rfl
    · rcases env.codeVerifier with _ | v
      · rcases env.code <;> rcases env.state <;> rfl
      · rcases env.code with _ | c
        · rcases env.state <;> rfl
        · rcases hst : env.state with _ | st
          · rfl
          · have hne : s ≠ st := by
              rcases h with h | h
              · rw [hst] at h; exact absurd h (by simp)
              · rw [hst, hss] at h
                intro hcontra
                exact h (by rw [hcontra])
            simp [bne_iff_ne, hne, Ne.symm hne]
  rw [hout]
  exact ⟨rfl, rfl, rfl, rfl⟩

/-- C2 witness: with stored state `"abc"` and received state `"def"`, the flow
aborts with a 400 error, no calls, no stored token, no navigation. -/
theorem callback_state_mismatch_witness :
    (validateAuthorizationCode { demoEnv with state := some "def" }).result =
      FlowResult.response 400 ∧
    (validateAuthorizationCode { demoEnv with state := some "def" }).calls = [] ∧
    (validateAuthorizationCode { demoEnv with state := some "def" }).storedToken = none ∧
    (validateAuthorizationCode { demoEnv with state := some "def" }).navigatedHome = false :=
  callback_state_mismatch_aborts { demoEnv with state := some "def" }
    (Or.inr (by decide))

/-- C7: whenever the flow passes the presence and state checks and the code
exchange succeeds but the decoded claims carry no subject id, the flow aborts
with a 400 error having issued only the token-exchange call — no user lookup,
user creation or session creation — and stores no token. -/
theorem callback_missing_sub_aborts
    (env : CallbackEnv) (s v c : String) (tok : OAuth2Tokens)
    (hs : env.storedState = some s) (hv : env.codeVerifier = some v)
    (hc : env.code = some c) (hst : env.state = some s)
    (hex : env.exchange c v = Except.ok tok)
    (hsub : (env.decodeIdToken tok.idToken).sub = none) :
    (validateAuthorizationCode env).result = FlowResult.response 400 ∧
    (validateAuthorizationCode env).calls = [BackendCall.exchange] ∧
    (validateAuthorizationCode env).storedToken = none ∧
    (validateAuthorizationCode env).navigatedHome = false := by
  have hstep : validateAuthorizationCode env = errOut 400 [BackendCall.exchange] := by
    unfold validateAuthorizationCode
    rw [hs, hv, hc, hst]
    simp [hex, hsub]
  rw [hstep]
  exact ⟨rfl, rfl, rfl, rfl⟩

/-- C7 witness: a demonstration environment whose id token decodes to claims
without a subject id aborts with status 400 after only the exchange call. -/
theorem callback_missing_sub_witness :
    (validateAuthorizationCode { demoEnv with
        decodeIdToken := fun _ =>
          { sub := none, name := none, email := none, picture := none } }).result =
      FlowResult.response 400 ∧
    (validateAuthorizationCode { demoEnv with
        decodeIdToken := fun _ =>
          { sub := none, name := none, email := none, picture := none } }).calls =
      [BackendCall.exchange] ∧
    (validateAuthorizationCode { demoEnv with
        decodeIdToken := fun _ =>
          { sub := none, name := none, email := none, picture := none } }).storedToken = none ∧
    (validateAuthorizationCode { demoEnv with
        decodeIdToken := fun _ =>
          { sub := none, name := none, email := none, picture := none } }).navigatedHome = false :=
  callback_missing_sub_aborts _ "abc" "ver" "xyz" { idToken := "idtok" }
    rfl rfl rfl rfl rfl rfl

/-- An environment whose account lookup returns an existing record that
carries no `id` field (every generated message field is optional). -/
def lookupNoIdEnv : CallbackEnv :=
  { demoEnv with getUserIdFromGoogleId := fun _ => some { id := none } }

/-- C3 counterexample: the lookup for subject id `"g1"` returns an existing
record, yet the flow still calls `createUser` — because the record's optional
`id` field is absent and `existingUser?.id ?? (await createUser(...)).user?.id`
falls through to the creation call. -/
theorem callback_creates_user_despite_existing_record :
    lookupNoIdEnv.getUserIdFromGoogleId "g1" = some { id := none } ∧
    BackendCall.createUser "g1" ∈ (validateAuthorizationCode lookupNoIdEnv).calls := by
  constructor
  · rfl
  · decide

/-- C3 amended: once the flow reaches the account lookup for subject id `g`,
`createUser` is called exactly once when the lookup yields no record or a
record without a linked user id, and is never called when the lookup yields a
record carrying a user id. -/
theorem create_user_only_without_linked_id
    (env : CallbackEnv) (s v c : String) (tok : OAuth2Tokens) (g : String)
    (hs : env.storedState = some s) (hv : env.codeVerifier = some v)
    (hc : env.code = some c) (hst : env.state = some s)
    (hex : env.exchange c v = Except.ok tok)
    (hsub : (env.decodeIdToken tok.idToken).sub = some g) :
    ((env.getUserIdFromGoogleId g).bind GetUserIdFromGoogleIdResp.id = none →
      (validateAuthorizationCode env).calls.count (BackendCall.createUser g) = 1) ∧
    (∀ uid, (env.getUserIdFromGoogleId g).bind GetUserIdFromGoogleIdResp.id = some uid →
      BackendCall.createUser g ∉ (validateAuthorizationCode env).calls) := by
  have hstep : validateAuthorizationCode env = finishLogin env g := by
    unfold validateAuthorizationCode
    rw [hs, hv, hc, hst]
    simp [hex, hsub]
  rw [hstep]
  constructor
  · intro hnone
    have hcalled : createUserCalled env g = true := by
      simp [createUserCalled, hnone]
    unfold finishLogin
    rw [hcalled]
    rcases hres : resolvedUserId env g with _ | u
    · simp [errOut, List.count_cons]
    · rcases hu : u == "" with _ | _
      · rcases htok : (env.createSession u).token with _ | t
        · simp [hu, htok, errOut, List.count_cons]
        · rcases ht : t == "" with _ | _
          · simp [hu, htok, ht, errOut, List.count_cons]
          · simp [hu, htok, ht, errOut, List.count_cons]
      · simp [hu, errOut, List.count_cons]
  · intro uid hsome
    have hcalled : createUserCalled env g = false := by
      simp [createUserCalled, hsome]
    have hres : resolvedUserId env g = some uid := by
      simp [resolvedUserId, hsome]
    unfold finishLogin
    rw [hcalled, hres]
    rcases hu : uid == "" with _ | _
    · rcases htok : (env.createSession uid).token with _ | t
      · simp [hu, htok, errOut]
      · rcases ht : t == "" with _ | _
        · simp [hu, htok, ht, errOut]
        · simp [hu, htok, ht, errOut]
    · simp [hu, errOut]

/-- C3 witness: in the successful demonstration environment the lookup yields
no record and `createUser` is called exactly once. -/
theorem create_user_only_without_linked_id_witness :
    (validateAuthorizationCode demoEnv).calls.count (BackendCall.createUser "g1") = 1 :=
  (create_user_only_without_linked_id demoEnv "abc" "ver" "xyz"
    { idToken := "idtok" } "g1" rfl rfl rfl rfl rfl rfl).1 rfl

/-- A base fetch whose every response is a 401. -/
def always401 : ReqInit → FetchResponse :=
  fun _ => { status := 401, statusText := "Unauthorized", bodyText := "" }

/-- A caller `init` with no fields set. -/
def plainInit : ReqInit :=
  { method := none, body := none, headers := [], cache := none, credentials := none }

/-- C4 counterexample: through the current `BaseService` wrapper
(`src/app/src/lib/service.ts`), a 401 response triggers the `/login`
navigation but the stored session token is NOT removed — it is still
`some "tok"` afterwards. -/
theorem service_fetch_401_leaves_token_stored :
    (serviceFetch always401 plainInit (some "tok")).1.status = 401 ∧
    (serviceFetch always401 plainInit (some "tok")).2.2 = true ∧
    (serviceFetch always401 plainInit (some "tok")).2.1 = some "tok" :=
  ⟨rfl, rfl, rfl⟩

/-- C4 amended: on a 401 response, the current cookie-credentials wrapper
navigates to `/login` and leaves the stored session token unchanged, while the
older bearer-token wrapper variant (authenticated call) removes the stored
token and navigates to `/login`. -/
theorem fetch_401_redirects_to_login (f : ReqInit → FetchResponse)
    (init : ReqInit) (tok0 : Option String) (h : ∀ i, (f i).status = 401) :
    (serviceFetch f init tok0).2.2 = true ∧
    (serviceFetch f init tok0).2.1 = tok0 ∧
    (bearerServiceFetch f init true tok0).2.1 = none ∧
    (bearerServiceFetch f init true tok0).2.2 = true := by
  simp [serviceFetch, bearerServiceFetch, h]

/-- C4 amended witness: with an always-401 base fetch and a stored token
`"t0"`, the cookie wrapper keeps the token and redirects; the bearer wrapper
drops it and redirects. -/
theorem fetch_401_redirects_to_login_witness :
    (serviceFetch always401 plainInit (some "t0")).2.2 = true ∧
    (serviceFetch always401 plainInit (some "t0")).2.1 = some "t0" ∧
    (bearerServiceFetch always401 plainInit true (some "t0")).2.1 = none ∧
    (bearerServiceFetch always401 plainInit true (some "t0")).2.2 = true :=
  fetch_401_redirects_to_login always401 plainInit (some "t0") (fun _ => rfl)

/-- C9: the current `BaseService` wrapper dispatches with
`credentials: 'include'`, forwards the caller's non-header init fields
unchanged, leaves the stored token untouched, and hands the underlying
response back to the caller unmodified; the `/login` navigation happens
exactly when that response's status is 401 and does not alter the returned
response. -/
theorem base_fetch_forwards_init_and_returns_response
    (f : ReqInit → FetchResponse) (init : ReqInit) (tok0 : Option String) :
    (forwardedInit init).credentials = some CredentialsMode.credInclude ∧
    (forwardedInit init).method = init.method ∧
    (forwardedInit init).body = init.body ∧
    (forwardedInit init).cache = init.cache ∧
    (serviceFetch f init tok0).1 = f (forwardedInit init) ∧
    (serviceFetch f init tok0).2.1 = tok0 ∧
    (serviceFetch f init tok0).2.2 = ((f (forwardedInit init)).status == 401) := by
  simp [serviceFetch, forwardedInit]

/-- C8: `getCurrentUser` returns `undefined` without throwing on a 404,
throws an `HttpError` carrying the status on any other non-ok status, and on
an ok status returns the body's `user` field (`undefined` when absent/null). -/
theorem get_current_user_response_handling (status : Nat) (body : GetUserResp) :
    (status = 404 → getCurrentUser status body = Except.ok none) ∧
    (status ≠ 404 → respOk status = false →
      getCurrentUser status body = Except.error { status := status }) ∧
    (respOk status = true → getCurrentUser status body = Except.ok body.user) := by
  refine ⟨fun h404 => ?_, fun hne hok => ?_, fun hok => ?_⟩
  · simp [getCurrentUser, h404]
  · simp [getCurrentUser, hne, hok]
  · have hne : status ≠ 404 := by
      intro hcontra
      rw [hcontra] at hok
      simp [respOk] at hok
    simp [getCurrentUser, hne, hok]

/-- C8 witness: a 404 yields `undefined`, a 500 throws `HttpError 500`, and a
200 with a populated body yields its user. -/
theorem get_current_user_response_handling_witness :
    getCurrentUser 404 { user := none } = Except.ok none ∧
    getCurrentUser 500 { user := none } = Except.error { status := 500 } ∧
    getCurrentUser 200 { user := some { id := some "u1" } } =
      Except.ok (some { id := some "u1" }) :=
  ⟨(get_current_user_response_handling 404 { user := none }).1 rfl,
   (get_current_user_response_handling 500 { user := none }).2.1
     (by decide) (by decide),
   (get_current_user_response_handling 200 { user := some { id := some "u1" } }).2.2
     (by decide)⟩

/-- C10: the home-page `load` redirects with 307 to `/login` without calling
`getCurrentUser` when the stored token is `null` or the empty string, and
otherwise calls `getCurrentUser` and returns (or propagates) its outcome. -/
theorem home_load_guard (token : Option String)
    (gcu : Except HttpError (Option UserMsg)) :
    (token = none ∨ token = some "" →
      homeLoad token gcu = (LoadOutcome.redirected 307 "/login", false)) ∧
    (token ≠ none → token ≠ some "" →
      (homeLoad token gcu).2 = true ∧
      (∀ u, gcu = Except.ok u → (homeLoad token gcu).1 = LoadOutcome.returned u) ∧
      (∀ e, gcu = Except.error e → (homeLoad token gcu).1 = LoadOutcome.threw e)) := by
  constructor
  · rintro (h | h) <;> simp [homeLoad, h]
  · intro hne hnee
    have hcond : (token == none || token == some "") = false := by
      rcases token with _ | t
      · exact absurd rfl hne
      · have ht : t ≠ "" := fun hc => hnee (by rw [hc])
        simp [beq_iff_eq, ht]
    rcases gcu with e' | u'
    · refine ⟨by simp [homeLoad, hcond], fun u hu => by simp at hu, fun e he => ?_⟩
      injection he with hee
      subst hee
      simp [homeLoad, hcond]
    · refine ⟨by simp [homeLoad, hcond], fun u hu => ?_, fun e he => by simp at he⟩
      injection hu with huu
      subst huu
      simp [homeLoad, hcond]

/-- C10 witness: a present non-empty token leads to a `getCurrentUser` call
whose result is returned; a `null` token redirects 307 to `/login` with no
call. -/
theorem home_load_guard_witness :
    homeLoad none (Except.ok none) = (LoadOutcome.redirected 307 "/login", false) ∧
    (homeLoad (some "t") (Except.ok (some { id := some "u1" }))).2 = true ∧
    (homeLoad (some "t") (Except.ok (some { id := some "u1" }))).1 =
      LoadOutcome.returned (some { id := some "u1" }) :=
  ⟨(home_load_guard none (Except.ok none)).1 (Or.inl rfl),
   ((home_load_guard (some "t") (Except.ok (some { id := some "u1" }))).2
      (by decide) (by decide)).1,
   (((home_load_guard (some "t") (Except.ok (some { id := some "u1" }))).2
      (by decide) (by decide)).2.1 (some { id := some "u1" }) rfl)⟩

/-- C5: in every reachable database state the user ids are pairwise distinct
and every row of the sessions table carries a user id that is the id of
exactly one existing row of the users table. -/
theorem session_references_exactly_one_user (db : AuthDB)
    (h : AuthDB.Reachable db) :
    db.users.Nodup ∧ ∀ srow ∈ db.sessions, db.users.count srow.userId = 1 := by
  induction h with
  | init => simp
  | createUser db uid hr hfresh ih =>
    refine ⟨List.nodup_cons.mpr ⟨hfresh, ih.1⟩, fun srow hmem => ?_⟩
    have h1 := ih.2 srow hmem
    have hne : srow.userId ≠ uid := by
      intro hcontra
      apply hfresh
      rw [← hcontra]
      exact List.count_pos_iff.mp (by omega)
    rw [show (uid :: db.users) = [uid] ++ db.users from rfl, List.count_append]
    simp [List.count_singleton', Ne.symm hne, h1]
  | createSession db sid uid hr hmem ih =>
    refine ⟨ih.1, fun srow hsrow => ?_⟩
    rcases List.mem_cons.mp hsrow with hcase | hcase
    · subst hcase
      exact List.count_eq_one_of_mem ih.1 hmem
    · exact ih.2 srow hcase
  | deleteSession db sid hr ih =>
    exact ⟨ih.1, fun srow hsrow => ih.2 srow (List.mem_of_mem_filter hsrow)⟩

/-- A reachable demonstration database: one user, one session for that user. -/
def demoDB : AuthDB := { users := ["u1"], sessions := [{ id := "s1", userId := "u1" }] }

/-- C5 witness: the demonstration database is reachable and each of its
sessions references exactly one existing user. -/
theorem session_references_exactly_one_user_witness :
    AuthDB.Reachable demoDB ∧
    (demoDB.users.Nodup ∧
      ∀ srow ∈ demoDB.sessions, demoDB.users.count srow.userId = 1) := by
  have h1 : AuthDB.Reachable { users := ["u1"], sessions := [] } :=
    AuthDB.Reachable.createUser { users := [], sessions := [] } "u1"
      AuthDB.Reachable.init (by simp)
  have hr : AuthDB.Reachable demoDB :=
    AuthDB.Reachable.createSession { users := ["u1"], sessions := [] } "s1" "u1"
      h1 (by simp)
  exact ⟨hr, session_references_exactly_one_user demoDB hr⟩

/-- In every reachable `oauth_accounts` state, the `external_user_id` values
are pairwise distinct (the `UNIQUE` constraint). -/
theorem oauth_externalUserId_pairwise (t : List OAuthAccountRow)
    (h : OAuthTable.Reachable t) :
    t.Pairwise (fun r r' => r.externalUserId ≠ r'.externalUserId) := by
  induction h with
  | init => exact List.Pairwise.nil
  | insert t r hr hunique hpk ih =>
    exact List.pairwise_cons.mpr
      ⟨fun r' hr' hc => hunique r' hr' (by rw [hc]), ih⟩
  | delete t rid hr ih =>
    exact List.Pairwise.sublist (List.filter_sublist t) ih

/-- C6: in every reachable `oauth_accounts` state, any two distinct rows
differ in their (provider, external user id) pair. -/
theorem oauth_provider_external_pair_unique (t : List OAuthAccountRow)
    (h : OAuthTable.Reachable t) :
    ∀ i j : Fin t.length, i ≠ j →
      ((t.get i).provider, (t.get i).externalUserId) ≠
        ((t.get j).provider, (t.get j).externalUserId) := by
  have hp := List.pairwise_iff_get.mp (oauth_externalUserId_pairwise t h)
  intro i j hij hcontra
  have hsnd : (t.get i).externalUserId = (t.get j).externalUserId :=
    congrArg Prod.snd hcontra
  have hvalne : i.val ≠ j.val := Fin.val_ne_of_ne hij
  rcases Nat.lt_or_ge i.val j.val with hlt | hge
  · exact hp i j hlt hsnd
  · have hlt : j.val < i.val := by omega
    exact hp j i hlt hsnd.symm

/-- A reachable two-row demonstration `oauth_accounts` table. -/
def demoOAuthTable : List OAuthAccountRow :=
  [{ id := "b", provider := 1, externalUserId := "e2" },
   { id := "a", provider := 1, externalUserId := "e1" }]

/-- C6 witness: the demonstration table is reachable and its two rows differ
in their (provider, external user id) pair. -/
theorem oauth_provider_external_pair_unique_witness :
    OAuthTable.Reachable demoOAuthTable ∧
    ((demoOAuthTable.get ⟨0, by decide⟩).provider,
      (demoOAuthTable.get ⟨0, by decide⟩).externalUserId) ≠
      ((demoOAuthTable.get ⟨1, by decide⟩).provider,
        (demoOAuthTable.get ⟨1, by decide⟩).externalUserId) := by
  have h1 : OAuthTable.Reachable [{ id := "a", provider := 1, externalUserId := "e1" }] :=
    OAuthTable.Reachable.insert [] { id := "a", provider := 1, externalUserId := "e1" }
      OAuthTable.Reachable.init (by simp) (by simp)
  have hr : OAuthTable.Reachable demoOAuthTable :=
    OAuthTable.Reachable.insert _ { id := "b", provider := 1, externalUserId := "e2" }
      h1 (by simp) (by simp)
  exact ⟨hr, oauth_provider_external_pair_unique demoOAuthTable hr
    ⟨0, by decide⟩ ⟨1, by decide⟩ (by decide)⟩
